import Mathlib

/-!
Shallow embedding of `src/lib.rs` of memleak_tracy_client, a dynamic-linker
interposer for the four C allocator entry points (`malloc`, `free`, `realloc`,
`calloc`) that forwards each call to the original allocator and reports the
operation to the Tracy profiler.

Modelling conventions:
- Pointers and `size_t` values are `Nat`; the null pointer is `0`.
- The thread-local `RECURSION_GUARD` (`Cell<u32>`) is an explicit `Nat`
  argument threaded through each function; `thread_local!` means the flag is
  never shared, so a single cell models one thread.
- Calls into external code are recorded as events: each invocation of an
  original allocator function (with its argument values and, as an oracle,
  the value it returned) and each `___tracy_emit_memory_*_callstack` call.
  The value returned by an original allocator call is nondeterministic, so it
  is passed to the embedded function as an explicit `ret` argument.
- `Client::start()` (called by `AllocationTracker::new`) is recorded as a
  `sessionStart` event; `lazy_static!` initialisation is modelled explicitly.
-/

namespace Memleak

/-- Observable events of one thread: calls into the original allocator
(`orig*`, carrying the forwarded arguments and the returned value) and calls
into the Tracy profiler (`emitAlloc` for
`___tracy_emit_memory_alloc_callstack`, `emitFree` for
`___tracy_emit_memory_free_callstack`, `sessionStart` for `Client::start`). -/
inductive Ev where
  | origMalloc (size ret : Nat)
  | origFree (ptr : Nat)
  | origRealloc (ptr size ret : Nat)
  | origCalloc (count size ret : Nat)
  | emitAlloc (ptr size : Nat) (depth : Int) (pool : Nat)
  | emitFree (ptr : Nat) (depth : Int) (pool : Nat)
  | sessionStart
  deriving DecidableEq, Repr

/-- Event classifier: calls to the original allocator. -/
def Ev.isOrig : Ev → Bool
  | .origMalloc _ _ => true
  | .origFree _ => true
  | .origRealloc _ _ _ => true
  | .origCalloc _ _ _ => true
  | _ => false

/-- Event classifier: Tracy allocation-event emissions. -/
def Ev.isEmitAlloc : Ev → Bool
  | .emitAlloc _ _ _ _ => true
  | _ => false

/-- Event classifier: Tracy free-event emissions. -/
def Ev.isEmitFree : Ev → Bool
  | .emitFree _ _ _ => true
  | _ => false

/-- Event classifier: any Tracy alloc/free emission. -/
def Ev.isEmit (e : Ev) : Bool := e.isEmitAlloc || e.isEmitFree

/-- Event predicate: an emitted event carries capture depth 5 and pool id 0
(non-emission events satisfy it vacuously). -/
def Ev.hasDefaultDepthPool : Ev → Bool
  | .emitAlloc _ _ d p => d == 5 && p == 0
  | .emitFree _ d p => d == 5 && p == 0
  | _ => true

/-- The constant `CALLSTACK_DEPTH: i32 = 5` from `src/lib.rs` line 124. -/
def CALLSTACK_DEPTH : Int := 5

/-- Maximum value of `usize` / `size_t` on the 64-bit targets this library
is built for; `saturating_mul` clamps to it. -/
def USIZE_MAX : Nat := 2 ^ 64 - 1

/-- Rust `usize::saturating_mul`: the product, clamped to `USIZE_MAX`. -/
def saturating_mul (a b : Nat) : Nat := min (a * b) USIZE_MAX

/-- Embedding of `enter_critical_section` (`src/lib.rs` lines 66-78): reads
the thread-local guard cell; if it is already positive the call is denied and
the cell is left unchanged, otherwise the cell is set to 1 and the call is
granted. Returns (granted?, new cell value). -/
def enter_critical_section (g : Nat) : Bool × Nat :=
  if g > 0 then (false, g) else (true, 1)

/-- Embedding of `exit_critical_section` (`src/lib.rs` lines 81-86): sets the
guard cell to 0 unconditionally. -/
def exit_critical_section (_g : Nat) : Nat := 0

/-- Embedding of the intercepted `malloc` (`src/lib.rs` lines 127-142).
`ret` is the oracle value returned by the single `(*ORIGINAL_MALLOC)(size)`
call. Returns (result, new guard, events of this call in order). -/
def malloc (size ret g : Nat) : Nat × Nat × List Ev :=
  let e := enter_critical_section g
  if e.1 then
    (ret, exit_critical_section e.2,
      [Ev.origMalloc size ret, Ev.emitAlloc ret size CALLSTACK_DEPTH 0])
  else
    (ret, e.2, [Ev.origMalloc size ret])

/-- Embedding of the intercepted `free` (`src/lib.rs` lines 145-158): on the
granted path it emits the free event first and then calls the original free.
Returns (new guard, events of this call in order). -/
def free (ptr g : Nat) : Nat × List Ev :=
  let e := enter_critical_section g
  if e.1 then
    (exit_critical_section e.2,
      [Ev.emitFree ptr CALLSTACK_DEPTH 0, Ev.origFree ptr])
  else
    (e.2, [Ev.origFree ptr])

/-- Embedding of the intercepted `realloc` (`src/lib.rs` lines 161-184): on
the granted path it emits a free event for a non-null input pointer, calls
the original realloc, and emits an alloc event only for a non-null result.
`ret` is the oracle value returned by `(*ORIGINAL_REALLOC)(ptr, size)`. -/
def realloc (ptr size ret g : Nat) : Nat × Nat × List Ev :=
  let e := enter_critical_section g
  if e.1 then
    (ret, exit_critical_section e.2,
      (if ptr ≠ 0 then [Ev.emitFree ptr CALLSTACK_DEPTH 0] else []) ++
        [Ev.origRealloc ptr size ret] ++
        (if ret ≠ 0 then [Ev.emitAlloc ret size CALLSTACK_DEPTH 0] else []))
  else
    (ret, e.2, [Ev.origRealloc ptr size ret])

/-- Embedding of the intercepted `calloc` (`src/lib.rs` lines 188-203): on
the granted path it calls the original calloc, computes
`total_size = count.saturating_mul(size)`, and emits an alloc event with that
size only for a non-null result. `ret` is the oracle value returned by
`(*ORIGINAL_CALLOC)(count, size)`. -/
def calloc (count size ret g : Nat) : Nat × Nat × List Ev :=
  let e := enter_critical_section g
  if e.1 then
    (ret, exit_critical_section e.2,
      [Ev.origCalloc count size ret] ++
        (if ret ≠ 0 then
          [Ev.emitAlloc ret (saturating_mul count size) CALLSTACK_DEPTH 0]
        else []))
  else
    (ret, e.2, [Ev.origCalloc count size ret])

/-- Embedding of `AllocationTracker::new` (`src/lib.rs` lines 93-104): its
body is `Client::start()`, recorded as the session-start event. -/
def AllocationTracker_new : List Ev := [Ev.sessionStart]

/-- Dereferencing the `lazy_static` `GLOBAL_TRACKER` (`src/lib.rs` lines
112-118): if not yet initialised, `AllocationTracker::new` runs (once) and the
instance is cached; later dereferences return the cache without running the
initialiser. Returns (initialised after, events produced by this deref). -/
def forceGlobalTracker (started : Bool) : Bool × List Ev :=
  if started then (true, []) else (true, AllocationTracker_new)

/-- One call to an intercepted entry point, with the oracle return value of
the original allocator call it will make. -/
inductive Call where
  | mallocC (size ret : Nat)
  | freeC (ptr : Nat)
  | reallocC (ptr size ret : Nat)
  | callocC (count size ret : Nat)
  deriving DecidableEq, Repr

/-- Effect of one intercepted call on the thread's guard cell, together with
the events it produces. -/
def stepCall (c : Call) (g : Nat) : Nat × List Ev :=
  match c with
  | .mallocC size ret => ((malloc size ret g).2.1, (malloc size ret g).2.2)
  | .freeC ptr => free ptr g
  | .reallocC ptr size ret =>
      ((realloc ptr size ret g).2.1, (realloc ptr size ret g).2.2)
  | .callocC count size ret =>
      ((calloc count size ret g).2.1, (calloc count size ret g).2.2)

/-- A single-threaded sequence of intercepted calls, starting from guard
value `g`: final guard value and the concatenated event trace. -/
def run (g : Nat) : List Call → Nat × List Ev
  | [] => (g, [])
  | c :: cs =>
      ((run (stepCall c g).1 cs).1,
        (stepCall c g).2 ++ (run (stepCall c g).1 cs).2)

/-- Embedding of one `lazy_static` block resolving an original allocator
function (`src/lib.rs` lines 18-54): `dlsym(RTLD_NEXT, name)` yields `dl`
(0 for "no definition found"); a null result panics (modelled as `none`,
process terminated), otherwise the pointer is the resolved function. -/
def resolve_original (dl : Nat) : Option Nat :=
  if dl = 0 then none else some dl

/-- One read of a lazily resolved original-function pointer. `cell` is the
cached pointer (`none` before first use), `dl` the `dlsym` oracle result used
if the initialiser runs. Returns (value obtained or `none` for process
termination, cache afterwards). The initialiser body runs only when the cache
is empty, per `lazy_static` one-time initialisation. -/
def lazy_get (cell : Option Nat) (dl : Nat) : Option Nat × Option Nat :=
  match cell with
  | some v => (some v, some v)
  | none =>
      match resolve_original dl with
      | none => (none, none)
      | some v => (some v, some v)

/-- Helper: no intercepted entry point ever produces a session-start event;
none of them dereferences `GLOBAL_TRACKER`. -/
theorem stepCall_no_sessionStart (c : Call) (g : Nat) :
    Ev.sessionStart ∉ (stepCall c g).2 := by
  cases c <;> by_cases h : g > 0 <;>
    simp [stepCall, malloc, free, realloc, calloc, enter_critical_section,
      exit_critical_section, h]

/-- C1: the spec says the profiling session is started once, at the first
granted intercepted call, via lazy initialisation of `GLOBAL_TRACKER`. The
code defines that lazily initialised tracker (whose initialiser is
`Client::start()`), but no intercepted entry point ever dereferences it, so
no execution of the entry points produces the session-start event at all:
`Client::start` would run only if `GLOBAL_TRACKER` were forced, which the
second conjunct shows, and the first conjunct shows no call sequence run
through the entry points ever does. -/
theorem session_never_started_by_entry_points :
    (∀ cs g, Ev.sessionStart ∉ (run g cs).2) ∧
    forceGlobalTracker false = (true, [Ev.sessionStart]) := by
  refine ⟨?_, rfl⟩
  intro cs g
  induction cs generalizing g with
  | nil => simp [run]
  | cons c cs ih =>
      simp only [run, List.mem_append, not_or]
      exact ⟨stepCall_no_sessionStart c g, ih _⟩

/-- C2: the intercepted `malloc` returns exactly the value returned by the
single call it makes to the original allocator, with the size argument
forwarded unchanged, on both the guard-granted (`g = 0`) and guard-denied
(`g > 0`) paths, including when the original returns null. -/
theorem malloc_transparent (size ret g : Nat) :
    (malloc size ret g).1 = ret ∧
    ((malloc size ret g).2.2.filter Ev.isOrig) = [Ev.origMalloc size ret] := by
  by_cases h : g > 0 <;>
    simp [malloc, enter_critical_section, exit_critical_section, h, Ev.isOrig]

/-- C3: the single-threaded sequence `malloc(64) = P1`, `realloc(P1, 128) =
P2`, `free(P2)`, run with the recursion guard initially clear and both
results non-null, emits exactly four profiler events, in this order:
alloc(P1, 64), free(P1), alloc(P2, 128), free(P2). -/
theorem alloc_realloc_free_event_stream (P1 P2 : Nat)
    (h1 : P1 ≠ 0) (h2 : P2 ≠ 0) :
    ((run 0 [Call.mallocC 64 P1, Call.reallocC P1 128 P2,
        Call.freeC P2]).2.filter Ev.isEmit) =
      [Ev.emitAlloc P1 64 CALLSTACK_DEPTH 0,
       Ev.emitFree P1 CALLSTACK_DEPTH 0,
       Ev.emitAlloc P2 128 CALLSTACK_DEPTH 0,
       Ev.emitFree P2 CALLSTACK_DEPTH 0] := by
  simp [run, stepCall, malloc, realloc, free, enter_critical_section,
    exit_critical_section, h1, h2, Ev.isEmit, Ev.isEmitAlloc, Ev.isEmitFree]

/-- Witness for C3 at P1 = 1, P2 = 2. -/
theorem alloc_realloc_free_event_stream_witness :
    ((run 0 [Call.mallocC 64 1, Call.reallocC 1 128 2,
        Call.freeC 2]).2.filter Ev.isEmit) =
      [Ev.emitAlloc 1 64 CALLSTACK_DEPTH 0,
       Ev.emitFree 1 CALLSTACK_DEPTH 0,
       Ev.emitAlloc 2 128 CALLSTACK_DEPTH 0,
       Ev.emitFree 2 CALLSTACK_DEPTH 0] :=
  alloc_realloc_free_event_stream 1 2 (by decide) (by decide)

/-- C4: a guard-granted `free` emits the free event strictly before the call
to the original free, for every pointer including null; a guard-granted
`realloc` with a non-null input pointer emits its free event before the call
to the original realloc. -/
theorem free_event_before_original :
    (∀ ptr, (free ptr 0).2 =
      [Ev.emitFree ptr CALLSTACK_DEPTH 0, Ev.origFree ptr]) ∧
    (∀ ptr size ret, ptr ≠ 0 →
      (realloc ptr size ret 0).2.2 =
        Ev.emitFree ptr CALLSTACK_DEPTH 0 :: Ev.origRealloc ptr size ret ::
          (if ret ≠ 0 then [Ev.emitAlloc ret size CALLSTACK_DEPTH 0]
           else [])) := by
  constructor
  · intro ptr
    simp [free, enter_critical_section, exit_critical_section]
  · intro ptr size ret h
    simp [realloc, enter_critical_section, exit_critical_section, h]

/-- Witness for C4 at ptr = 7, size = 64, ret = 9. -/
theorem free_event_before_original_witness :
    (free 7 0).2 = [Ev.emitFree 7 CALLSTACK_DEPTH 0, Ev.origFree 7] ∧
    (realloc 7 64 9 0).2.2 =
      Ev.emitFree 7 CALLSTACK_DEPTH 0 :: Ev.origRealloc 7 64 9 ::
        [Ev.emitAlloc 9 64 CALLSTACK_DEPTH 0] := by
  refine ⟨free_event_before_original.1 7, ?_⟩
  simpa using free_event_before_original.2 7 64 9 (by decide)

/-- C5: null suppression is function-specific. A granted `malloc` whose
original call returns null still emits alloc(0, size); a granted `free` of a
null pointer still emits free(0); a granted `calloc` whose original call
returns null emits nothing; a granted `realloc` whose original call returns
null emits no alloc event; and in each case the null result is returned (for
`free`, the null pointer is forwarded) unchanged. -/
theorem null_result_emission_function_specific :
    (∀ size, (malloc size 0 0).1 = 0 ∧
      ((malloc size 0 0).2.2.filter Ev.isEmit) =
        [Ev.emitAlloc 0 size CALLSTACK_DEPTH 0]) ∧
    ((free 0 0).2 = [Ev.emitFree 0 CALLSTACK_DEPTH 0, Ev.origFree 0]) ∧
    (∀ count size, (calloc count size 0 0).1 = 0 ∧
      ((calloc count size 0 0).2.2.filter Ev.isEmit) = []) ∧
    (∀ ptr size, (realloc ptr size 0 0).1 = 0 ∧
      ((realloc ptr size 0 0).2.2.filter Ev.isEmitAlloc) = []) := by
  refine ⟨?_, ?_, ?_, ?_⟩
  · intro size
    simp [malloc, enter_critical_section, exit_critical_section,
      Ev.isEmit, Ev.isEmitAlloc, Ev.isEmitFree]
  · simp [free, enter_critical_section, exit_critical_section]
  · intro count size
    simp [calloc, enter_critical_section, exit_critical_section,
      Ev.isEmit, Ev.isEmitAlloc, Ev.isEmitFree]
  · intro ptr size
    by_cases hp : ptr = 0 <;>
      simp [realloc, enter_critical_section, exit_critical_section, hp,
        Ev.isEmitAlloc]

/-- C6: an intercepted call made while the thread's flag is already set (as
it is throughout a granted interception, second conjunct) is denied: it
forwards the arguments to the original function, returns its result, emits
nothing, runs no further instrumentation, and leaves the flag set. -/
theorem denied_call_forwards_without_instrumentation :
    (∀ g, 0 < g →
      (∀ size ret, malloc size ret g = (ret, g, [Ev.origMalloc size ret])) ∧
      (∀ ptr, free ptr g = (g, [Ev.origFree ptr])) ∧
      (∀ ptr size ret,
        realloc ptr size ret g = (ret, g, [Ev.origRealloc ptr size ret])) ∧
      (∀ count size ret,
        calloc count size ret g = (ret, g, [Ev.origCalloc count size ret]))) ∧
    (enter_critical_section 0).2 = 1 := by
  refine ⟨?_, rfl⟩
  intro g hg
  refine ⟨?_, ?_, ?_, ?_⟩ <;> intros <;>
    simp [malloc, free, realloc, calloc, enter_critical_section, hg]

/-- Witness for C6 at flag value 1. -/
theorem denied_call_forwards_without_instrumentation_witness :
    malloc 64 7 1 = (7, 1, [Ev.origMalloc 64 7]) :=
  ((denied_call_forwards_without_instrumentation.1 1 (by decide)).1) 64 7

/-- C7: the reentrancy flag is a boolean, not a depth counter: `enter` grants
and sets the flag exactly when it was clear, a second `enter` without `exit`
is denied and leaves the flag unchanged, `exit` clears unconditionally, and
every granted intercepted entry point returns with the flag cleared. -/
theorem recursion_guard_boolean :
    enter_critical_section 0 = (true, 1) ∧
    (∀ g, 0 < g → enter_critical_section g = (false, g)) ∧
    (∀ g, exit_critical_section g = 0) ∧
    (∀ size ret, (malloc size ret 0).2.1 = 0) ∧
    (∀ ptr, (free ptr 0).1 = 0) ∧
    (∀ ptr size ret, (realloc ptr size ret 0).2.1 = 0) ∧
    (∀ count size ret, (calloc count size ret 0).2.1 = 0) := by
  refine ⟨rfl, ?_, fun g => rfl, ?_, ?_, ?_, ?_⟩ <;> intros <;>
    simp [malloc, free, realloc, calloc, enter_critical_section,
      exit_critical_section, *]

/-- Witness for C7 at flag value 1. -/
theorem recursion_guard_boolean_witness :
    enter_critical_section 1 = (false, 1) :=
  recursion_guard_boolean.2.1 1 (by decide)

/-- C8: a granted `calloc` emits the saturating product of count and size:
the exact product whenever it fits in `usize`, and the clamped maximum
`USIZE_MAX` whenever the product overflows; the call always returns. -/
theorem calloc_saturating_size (count size ret : Nat) (h : ret ≠ 0) :
    ((calloc count size ret 0).2.2.filter Ev.isEmit) =
      [Ev.emitAlloc ret (saturating_mul count size) CALLSTACK_DEPTH 0] ∧
    (count * size ≤ USIZE_MAX → saturating_mul count size = count * size) ∧
    (USIZE_MAX < count * size → saturating_mul count size = USIZE_MAX) := by
  refine ⟨?_, fun hle => ?_, fun hlt => ?_⟩
  · simp [calloc, enter_critical_section, exit_critical_section, h,
      Ev.isEmit, Ev.isEmitAlloc, Ev.isEmitFree]
  · simp [saturating_mul, Nat.min_eq_left hle]
  · simp [saturating_mul, Nat.min_eq_right (Nat.le_of_lt hlt)]

/-- Witness for C8 at count = 2^63, size = 4, ret = 1, an overflowing
product: the emitted size saturates to `USIZE_MAX`. -/
theorem calloc_saturating_size_witness :
    ((calloc (2 ^ 63) 4 1 0).2.2.filter Ev.isEmit) =
      [Ev.emitAlloc 1 (saturating_mul (2 ^ 63) 4) CALLSTACK_DEPTH 0] ∧
    saturating_mul (2 ^ 63) 4 = USIZE_MAX := by
  refine ⟨(calloc_saturating_size (2 ^ 63) 4 1 (by decide)).1, ?_⟩
  exact (calloc_saturating_size (2 ^ 63) 4 1 (by decide)).2.2
    (by norm_num [USIZE_MAX])

/-- C9: resolving an original allocator function pointer: if `dlsym` yields
no definition (null) at the first use, the initialiser panics, terminating
the process; otherwise the first use resolves and caches the pointer, and
every later use returns the cached pointer without consulting the resolver
(the `dlsym` oracle argument is ignored once the cache is populated). -/
theorem original_resolution_once_fatal :
    (∀ dl, dl = 0 → lazy_get none dl = (none, none)) ∧
    (∀ dl, dl ≠ 0 → lazy_get none dl = (some dl, some dl)) ∧
    (∀ v dl, lazy_get (some v) dl = (some v, some v)) := by
  refine ⟨?_, ?_, ?_⟩ <;> intros <;> simp [lazy_get, resolve_original, *]

/-- Witness for C9: a failed resolution terminates; a successful one caches. -/
theorem original_resolution_once_fatal_witness :
    lazy_get none 0 = (none, none) ∧ lazy_get none 3 = (some 3, some 3) :=
  ⟨original_resolution_once_fatal.1 0 rfl,
   original_resolution_once_fatal.2.1 3 (by decide)⟩

/-- Helper: every event produced by one intercepted call carries depth 5 and
pool 0 whenever it is an emission. -/
theorem stepCall_depth_pool (c : Call) (g : Nat) :
    ((stepCall c g).2.all Ev.hasDefaultDepthPool) = true := by
  cases c <;> by_cases h : g > 0 <;>
    simp [stepCall, malloc, free, realloc, calloc, enter_critical_section,
      exit_critical_section, h, CALLSTACK_DEPTH, Ev.hasDefaultDepthPool]

/-- C10: `CALLSTACK_DEPTH` is the constant 5, and every profiler event
emitted by any sequence of intercepted calls, from any starting flag value,
carries capture depth 5 and pool identifier 0. -/
theorem events_constant_depth_pool :
    CALLSTACK_DEPTH = 5 ∧
    ∀ cs g, ((run g cs).2.all Ev.hasDefaultDepthPool) = true := by
  refine ⟨rfl, ?_⟩
  intro cs g
  induction cs generalizing g with
  | nil => simp [run]
  | cons c cs ih =>
      simp only [run, List.all_append, Bool.and_eq_true]
      exact ⟨stepCall_depth_pool c g, ih _⟩

end Memleak
